import Mathlib

/-
Shallow embedding of osquery's plugin registry core
(src/include/osquery/registry.h) and proofs about its behavior.

Modeling decisions, applied uniformly:
* `std::map<std::string, T>` is modeled as a key-unique association list
  `List (String × T)` with `lookupKey` / `insertKey` / `eraseKey` mirroring
  `count`/`at`/`operator[]`/`erase`.  Iteration order of the C++ map is the
  list order; none of the properties proved below depend on a particular
  order beyond key uniqueness.
* C++ functions that can throw (here: `std::map::at` raising
  `std::out_of_range`) are modeled with `Except Fault _`; `Fault` marks an
  unchecked exception, as opposed to an explicit `Status` result.
* Side effects on plugins (`setUp`, `tearDown`, `call` invocations) are
  recorded in an explicit event trace `List Event`, so that "invokes
  tearDown exactly once" or "invokes no implementation code" are statable.
* A plugin's virtual methods are modeled as data: the `Status` its `setUp`
  returns, the `RouteInfo` its `routeInfo` returns, and its `call` as a
  pure function from request and current response to status and new
  response (the C++ `call` receives the response vector by reference).
-/

namespace osquery

/-- Modelled from the spec: the `Status` result type lives in
`osquery/status.h`, which is not part of the sources here.  The spec says
"All operations return an explicit result carrying a status code and
message"; code 0 is success (`Status(0, "OK")`), nonzero is failure. -/
structure Status where
  code : Nat
  message : String
deriving Repr, DecidableEq

/-- Success test on a `Status`: code 0. -/
def Status.ok (s : Status) : Bool := s.code == 0

/-- Source: `typedef std::map<std::string, std::string> RouteInfo;`. -/
abbrev RouteInfo := List (String × String)

/-- Source: `typedef std::map<std::string, std::string> PluginRequest;`. -/
abbrev PluginRequest := List (String × String)

/-- Source: `typedef std::vector<PluginRequest> PluginResponse;`. -/
abbrev PluginResponse := List PluginRequest

/-- Source: `typedef std::map<std::string, RouteInfo> RegistryRoutes;`. -/
abbrev RegistryRoutes := List (String × RouteInfo)

/-- Source: `typedef std::map<std::string, RegistryRoutes> RegistryBroadcast;`. -/
abbrev RegistryBroadcast := List (String × RegistryRoutes)

/-- An unchecked C++ exception escaping a registry operation.  The only one
the registry code can raise is `std::out_of_range` from `std::map::at`. -/
inductive Fault where
  | out_of_range : Fault
deriving Repr, DecidableEq

/-- Lifecycle / dispatch events recorded by the embedding: one event per
invocation of plugin implementation code. -/
inductive Event where
  | setUpCall : String → Event
  | tearDownCall : String → Event
  | pluginCall : String → Event
deriving Repr, DecidableEq

/-- `std::map` lookup (`find` / `at` / `count` combined): the value stored
under key `k`, if any. -/
def lookupKey {α : Type} (k : String) : List (String × α) → Option α
  | [] => none
  | (k', v) :: rest => if k' = k then some v else lookupKey k rest

/-- `std::map` insertion (`m[k] = v`): replace the entry under `k` if
present, else append a new entry. -/
def insertKey {α : Type} (k : String) (v : α) : List (String × α) → List (String × α)
  | [] => [(k, v)]
  | (k', v') :: rest => if k' = k then (k, v) :: rest else (k', v') :: insertKey k v rest

/-- `std::map::erase(k)`: drop the entry (all entries) stored under `k`. -/
def eraseKey {α : Type} (k : String) : List (String × α) → List (String × α)
  | [] => []
  | (k', v') :: rest => if k' = k then eraseKey k rest else (k', v') :: eraseKey k rest

/-- Source: `class Plugin` — a registry item.  `name` is `name_` (set by the
container at registration), `setUp` is the status its `setUp()` returns,
`routeInfo` the map its `routeInfo()` returns, and `call` its
`call(request, response)` behavior as a pure function of the request and
the current response vector.  `tearDown` has no observable return value and
is tracked purely through the event trace. -/
structure Plugin where
  name : String
  setUp : Status
  routeInfo : RouteInfo
  call : PluginRequest → PluginResponse → Status × PluginResponse

/-- The default behaviors of the `Plugin` base class: `name_ = "unnamed"`,
`setUp` returns `Status(0, "Not used")`, `routeInfo` returns an empty map,
and `call` returns `Status(1, "Error")` leaving the response untouched. -/
def Plugin.defaults : Plugin :=
  { name := "unnamed"
    setUp := Status.mk 0 "Not used"
    routeInfo := []
    call := fun _ response => (Status.mk 1 "Error", response) }

/-- Source: `template <class RegistryType> class RegistryCore` — one named
container of plugins.  `name` is `name_`, `items` is
`std::map<std::string, RegistryTypeRef> items_`, `auto_setup` is
`auto_setup_`. -/
structure RegistryCore where
  name : String
  items : List (String × Plugin)
  auto_setup : Bool

/-- The failure status `RegistryCore::add` returns for a duplicate name:
`Status(1, "Duplicate registry item exists: " + item_name)`. -/
def duplicateItem (item_name : String) : Status :=
  Status.mk 1 ("Duplicate registry item exists: " ++ item_name)

/-- The failure status `RegistryCore::call` returns for an unknown item:
`Status(1, "Cannot call registry item: " + item_name)`. -/
def itemNotFound (item_name : String) : Status :=
  Status.mk 1 ("Cannot call registry item: " ++ item_name)

/-- The failure status `RegistryFactory::call` returns for an unknown
registry: `Status(1, "Cannot call " + registry_name + ":" + item_name)`. -/
def registryNotFound (registry_name item_name : String) : Status :=
  Status.mk 1 ("Cannot call " ++ registry_name ++ ":" ++ item_name)

/-- Source: `RegistryCore::add` (registry.h:131-144).  If `item_name` is
already present return the duplicate failure; otherwise construct the item
via the supplied factory value, assign it the name (`item->setName`),
insert it, and return `Status(0, "OK")`. -/
def RegistryCore.add (r : RegistryCore) (item_name : String) (factory : Plugin) :
    Status × RegistryCore :=
  if (lookupKey item_name r.items).isSome then
    (duplicateItem item_name, r)
  else
    (Status.mk 0 "OK",
      { r with items := insertKey item_name { factory with name := item_name } r.items })

/-- Source: `RegistryCore::get` (registry.h:155-157) — `items_.at(item_name)`.
When the name is absent, `std::map::at` throws `std::out_of_range`: the
absence case is an unchecked fault, not an explicit `Status`. -/
def RegistryCore.get (r : RegistryCore) (item_name : String) : Except Fault Plugin :=
  match lookupKey item_name r.items with
  | some p => Except.ok p
  | none => Except.error Fault.out_of_range

/-- Source: `RegistryCore::remove` (registry.h:164-169).  If present, call
the item's `tearDown` (recorded as an event) and erase it; otherwise do
nothing. -/
def RegistryCore.remove (r : RegistryCore) (item_name : String) :
    RegistryCore × List Event :=
  match lookupKey item_name r.items with
  | some _ => ({ r with items := eraseKey item_name r.items }, [Event.tearDownCall item_name])
  | none => (r, [])

/-- Source: `RegistryCore::getRoutes` (registry.h:171-177) — one entry per
current item, keyed by item name, holding that item's `routeInfo()`. -/
def RegistryCore.getRoutes (r : RegistryCore) : RegistryRoutes :=
  r.items.map (fun p => (p.1, p.2.routeInfo))

/-- Source: `RegistryCore::call` (registry.h:195-202).  If the item exists,
delegate to its `call` (recorded as an event); otherwise return the
explicit item-not-found status, leaving the response untouched. -/
def RegistryCore.call (r : RegistryCore) (item_name : String)
    (request : PluginRequest) (response : PluginResponse) :
    Status × PluginResponse × List Event :=
  match lookupKey item_name r.items with
  | some item =>
      ((item.call request response).1, (item.call request response).2,
        [Event.pluginCall item_name])
  | none => (itemNotFound item_name, response, [])

/-- The `failed` vector computed by the first pass of
`RegistryCore::setUp`: the names of the items whose `setUp()` did not
return an ok status. -/
def RegistryCore.failedNames (r : RegistryCore) : List String :=
  (r.items.filter (fun p => !(p.2.setUp.ok))).map Prod.fst

/-- The second pass of `RegistryCore::setUp`: `remove` each failed name in
order, accumulating the tear-down events. -/
def removeList (r : RegistryCore) : List String → RegistryCore × List Event
  | [] => (r, [])
  | n :: rest =>
      ((removeList (r.remove n).1 rest).1,
        (r.remove n).2 ++ (removeList (r.remove n).1 rest).2)

/-- Source: `RegistryCore::setUp` (registry.h:217-235).  A lazy container
(`auto_setup_` false) returns immediately.  Otherwise the first pass calls
`setUp()` on every current item (one event per item, no mutation) and
records the failed names; the second pass removes each failed name. -/
def RegistryCore.setUp (r : RegistryCore) : RegistryCore × List Event :=
  if !r.auto_setup then (r, [])
  else
    ((removeList r r.failedNames).1,
      r.items.map (fun p => Event.setUpCall p.1) ++ (removeList r r.failedNames).2)

/-- Source: `RegistryCore::exists` (registry.h:238-240). -/
def RegistryCore.existsItem (r : RegistryCore) (item_name : String) : Bool :=
  (lookupKey item_name r.items).isSome

/-- Source: `RegistryCore::names` (registry.h:243-249) — the item
identifiers in iteration order. -/
def RegistryCore.names (r : RegistryCore) : List String :=
  r.items.map Prod.fst

/-- Source: `RegistryCore::count` (registry.h:252). -/
def RegistryCore.count (r : RegistryCore) : Nat :=
  r.items.length

/-- Source: `template <class TypeAPI> class RegistryFactory` — the
process-wide directory of containers; `registries` is
`std::map<std::string, RegistryTypeAPIRef> registries_`. -/
structure RegistryFactory where
  registries : List (String × RegistryCore)

/-- Source: `RegistryFactory::create` (registry.h:300-311).  Silent no-op
when the name already exists; otherwise store a fresh empty container with
the given name and auto-setup flag.  (The C++ returns a placeholder int,
dropped here.) -/
def RegistryFactory.create (f : RegistryFactory) (registry_name : String)
    (auto_setup : Bool) : RegistryFactory :=
  if (lookupKey registry_name f.registries).isSome then f
  else
    { registries :=
        insertKey registry_name
          { name := registry_name, items := [], auto_setup := auto_setup }
          f.registries }

/-- Source: `RegistryFactory::registry` (registry.h:313-315) —
`registries_.at(registry_name)`, which throws `std::out_of_range` when the
registry name is absent. -/
def RegistryFactory.registry (f : RegistryFactory) (registry_name : String) :
    Except Fault RegistryCore :=
  match lookupKey registry_name f.registries with
  | some r => Except.ok r
  | none => Except.error Fault.out_of_range

/-- Source: `RegistryFactory::add` (registry.h:317-322).  Resolve the
container via `registry()` (which throws on an absent name) and forward to
its `add`; the mutation through the stored handle is modeled by writing the
updated container back into the directory. -/
def RegistryFactory.add (f : RegistryFactory) (registry_name item_name : String)
    (factory : Plugin) : Except Fault (Status × RegistryFactory) :=
  match f.registry registry_name with
  | Except.error e => Except.error e
  | Except.ok r =>
      Except.ok ((r.add item_name factory).1,
        { registries := insertKey registry_name (r.add item_name factory).2 f.registries })

/-- Source: `RegistryFactory::getBroadcast` (registry.h:338-344) — one
`RegistryRoutes` per container, keyed by registry name. -/
def RegistryFactory.getBroadcast (f : RegistryFactory) : RegistryBroadcast :=
  f.registries.map (fun p => (p.1, p.2.getRoutes))

/-- Source: `RegistryFactory::call` (registry.h:346-355).  If the registry
name is present, forward to the container's `call`; otherwise return the
explicit registry-not-found status, leaving the response untouched. -/
def RegistryFactory.call (f : RegistryFactory) (registry_name item_name : String)
    (request : PluginRequest) (response : PluginResponse) :
    Status × PluginResponse × List Event :=
  match lookupKey registry_name f.registries with
  | some r => r.call item_name request response
  | none => (registryNotFound registry_name item_name, response, [])

/-- In the source the directory stores `shared_ptr` handles produced by
`new` inside `create`, so a stored handle is never null and the guard
`registries_.at(registry_name) == 0` in `RegistryFactory::names` is false
for every stored container.  The embedding stores container values, for
which the null test is constantly false. -/
def isNullHandle (_ : RegistryCore) : Bool := false

/-- Source: `RegistryFactory::names` (registry.h:378-384).  The guard calls
`registries_.at(registry_name)`, which throws `std::out_of_range` when the
registry name is absent; the comparison of the looked-up handle to null
never holds for a stored container, so the empty-vector branch is dead
code and present registries fall through to the container's `names`. -/
def RegistryFactory.names (f : RegistryFactory) (registry_name : String) :
    Except Fault (List String) :=
  match lookupKey registry_name f.registries with
  | none => Except.error Fault.out_of_range
  | some r => if isNullHandle r then Except.ok [] else Except.ok r.names

/-- Source: `RegistryFactory::count()` (registry.h:386). -/
def RegistryFactory.count (f : RegistryFactory) : Nat :=
  f.registries.length

/-! ### Association-list helper lemmas -/

theorem lookupKey_eraseKey {α : Type} (k m : String) (l : List (String × α)) :
    lookupKey m (eraseKey k l) = if m = k then none else lookupKey m l := by
  induction l with
  | nil => simp [lookupKey, eraseKey]
  | cons hd tl ih =>
      obtain ⟨k', v'⟩ := hd
      by_cases hk : k' = k
      · subst hk
        by_cases hm : m = k'
        · subst hm
          simp [lookupKey, eraseKey, ih]
        · simp [lookupKey, eraseKey, ih, hm, Ne.symm hm]
      · by_cases hm : k' = m
        · subst hm
          simp [lookupKey, eraseKey, hk, Ne.symm hk]
        · simp [lookupKey, eraseKey, hk, hm, ih]

theorem eraseKey_of_lookupKey_none {α : Type} (k : String) (l : List (String × α))
    (h : lookupKey k l = none) : eraseKey k l = l := by
  induction l with
  | nil => simp [eraseKey]
  | cons hd tl ih =>
      obtain ⟨k', v'⟩ := hd
      by_cases hk : k' = k
      · simp [lookupKey, hk] at h
      · simp [lookupKey, hk] at h
        simp [eraseKey, hk, ih h]

theorem lookupKey_insertKey {α : Type} (k m : String) (v : α) (l : List (String × α)) :
    lookupKey m (insertKey k v l) = if m = k then some v else lookupKey m l := by
  induction l with
  | nil =>
      by_cases hm : m = k
      · simp [lookupKey, insertKey, hm]
      · simp [lookupKey, insertKey, hm, Ne.symm hm]
  | cons hd tl ih =>
      obtain ⟨k', v'⟩ := hd
      by_cases hk : k' = k
      · subst hk
        by_cases hm : m = k'
        · subst hm
          simp [lookupKey, insertKey]
        · simp [lookupKey, insertKey, hm, Ne.symm hm]
      · by_cases hm : k' = m
        · subst hm
          simp [lookupKey, insertKey, hk, Ne.symm hk]
        · simp [lookupKey, insertKey, hk, hm, ih]

theorem lookupKey_map {α β : Type} (g : String → α → β) (k : String)
    (l : List (String × α)) :
    lookupKey k (l.map (fun p => (p.1, g p.1 p.2))) = (lookupKey k l).map (g k) := by
  induction l with
  | nil => simp [lookupKey]
  | cons hd tl ih =>
      obtain ⟨k', v'⟩ := hd
      by_cases hk : k' = k
      · subst hk
        simp [lookupKey]
      · simp [lookupKey, hk, ih]

theorem lookupKey_mem {α : Type} {k : String} {v : α} {l : List (String × α)}
    (h : lookupKey k l = some v) : (k, v) ∈ l := by
  induction l with
  | nil => simp [lookupKey] at h
  | cons hd tl ih =>
      obtain ⟨k', v'⟩ := hd
      by_cases hk : k' = k
      · subst hk
        simp [lookupKey] at h
        simp [h]
      · simp [lookupKey, hk] at h
        exact List.mem_cons_of_mem _ (ih h)

theorem lookupKey_isSome_of_mem {α : Type} {k : String} {v : α} {l : List (String × α)}
    (h : (k, v) ∈ l) : (lookupKey k l).isSome := by
  induction l with
  | nil => simp at h
  | cons hd tl ih =>
      obtain ⟨k', v'⟩ := hd
      rcases List.mem_cons.mp h with heq | hmem
      · obtain ⟨h1, h2⟩ := Prod.mk.injEq .. ▸ heq
        simp [lookupKey, h1.symm]
      · by_cases hk : k' = k
        · simp [lookupKey, hk]
        · simp [lookupKey, hk]
          exact ih hmem

theorem lookupKey_eq_some_of_mem_nodup {α : Type} {k : String} {v : α}
    {l : List (String × α)} (hnd : (l.map Prod.fst).Nodup) (h : (k, v) ∈ l) :
    lookupKey k l = some v := by
  induction l with
  | nil => simp at h
  | cons hd tl ih =>
      obtain ⟨k', v'⟩ := hd
      simp at hnd
      rcases List.mem_cons.mp h with heq | hmem
      · obtain ⟨h1, h2⟩ := Prod.mk.injEq .. ▸ heq
        simp [lookupKey, h1, h2]
      · have hk : k' ≠ k := by
          intro hk
          subst hk
          exact hnd.1 v (by simpa using hmem)
        simp [lookupKey, hk]
        exact ih hnd.2 hmem

/-! ### Lemmas about `remove`, `removeList` and `failedNames` -/

theorem remove_items (r : RegistryCore) (n : String) :
    (r.remove n).1.items = eraseKey n r.items := by
  cases h : lookupKey n r.items with
  | none => simp [RegistryCore.remove, h, eraseKey_of_lookupKey_none n r.items h]
  | some p => simp [RegistryCore.remove, h]

theorem lookupKey_removeList_items (ns : List String) (r : RegistryCore) (m : String) :
    lookupKey m (removeList r ns).1.items =
      if m ∈ ns then none else lookupKey m r.items := by
  induction ns generalizing r with
  | nil => simp [removeList]
  | cons n rest ih =>
      have h1 : (removeList r (n :: rest)).1 = (removeList (r.remove n).1 rest).1 := rfl
      rw [h1, ih, remove_items, lookupKey_eraseKey]
      by_cases hm : m ∈ rest
      · simp [hm]
      · by_cases hn : m = n
        · simp [hm, hn]
        · simp [hm, hn]

theorem removeList_events (ns : List String) (r : RegistryCore)
    (hnd : ns.Nodup) (hin : ∀ n ∈ ns, (lookupKey n r.items).isSome = true) :
    (removeList r ns).2 = ns.map Event.tearDownCall := by
  induction ns generalizing r with
  | nil => simp [removeList]
  | cons n rest ih =>
      have hn : (lookupKey n r.items).isSome = true := hin n (by simp)
      obtain ⟨p, hp⟩ := Option.isSome_iff_exists.mp hn
      have hrm2 : (r.remove n).2 = [Event.tearDownCall n] := by
        simp [RegistryCore.remove, hp]
      have hnotin : n ∉ rest := (List.nodup_cons.mp hnd).1
      have hrest : ∀ m ∈ rest, (lookupKey m (r.remove n).1.items).isSome = true := by
        intro m hm
        rw [remove_items, lookupKey_eraseKey]
        have hmn : ¬ m = n := fun hemn => hnotin (hemn ▸ hm)
        rw [if_neg hmn]
        exact hin m (List.mem_cons_of_mem _ hm)
      have h2 : (removeList r (n :: rest)).2
          = (r.remove n).2 ++ (removeList (r.remove n).1 rest).2 := rfl
      rw [h2, hrm2, ih (r.remove n).1 (List.nodup_cons.mp hnd).2 hrest]
      simp

theorem failedNames_nodup (r : RegistryCore) (hnd : (r.items.map Prod.fst).Nodup) :
    r.failedNames.Nodup := by
  have hsub : List.Sublist ((r.items.filter (fun p => !(p.2.setUp.ok))).map Prod.fst)
      (r.items.map Prod.fst) :=
    (List.filter_sublist _).map Prod.fst
  exact hnd.sublist hsub

theorem mem_failedNames {r : RegistryCore} {n : String} :
    n ∈ r.failedNames ↔ ∃ p, (n, p) ∈ r.items ∧ p.setUp.ok = false := by
  unfold RegistryCore.failedNames
  constructor
  · intro h
    obtain ⟨⟨k, p⟩, hmem, hk⟩ := List.mem_map.mp h
    obtain ⟨hmem', hpred⟩ := List.mem_filter.mp hmem
    have hk' : k = n := hk
    subst hk'
    exact ⟨p, hmem', by simpa using hpred⟩
  · rintro ⟨p, hmem, hfail⟩
    exact List.mem_map.mpr ⟨(n, p), List.mem_filter.mpr ⟨hmem, by simp [hfail]⟩, rfl⟩

/-! ### Concrete sample data used by witnesses and counterexamples -/

/-- A plugin whose `setUp` succeeds and whose `call` appends the request as
a response row. -/
def helloPlugin : Plugin :=
  { name := "hello"
    setUp := Status.mk 0 "OK"
    routeInfo := [("action", "greet")]
    call := fun request response => (Status.mk 0 "OK", response ++ [request]) }

/-- A plugin whose `setUp` always fails. -/
def brokenPlugin : Plugin :=
  { name := "broken"
    setUp := Status.mk 1 "fail"
    routeInfo := []
    call := fun _ response => (Status.mk 1 "Error", response) }

/-- A non-lazy container holding one healthy and one broken item. -/
def greeterCore : RegistryCore :=
  { name := "greeter"
    items := [("hello", helloPlugin), ("broken", brokenPlugin)]
    auto_setup := true }

/-- A lazy container holding the same two items. -/
def lazyCore : RegistryCore :=
  { name := "events"
    items := [("hello", helloPlugin), ("broken", brokenPlugin)]
    auto_setup := false }

/-- A container with no items. -/
def emptyGreeterCore : RegistryCore :=
  { name := "greeter", items := [], auto_setup := true }

/-- A directory with no containers. -/
def emptyDirectory : RegistryFactory := { registries := [] }

/-- A directory holding the sample container. -/
def greeterDirectory : RegistryFactory :=
  { registries := [("greeter", greeterCore)] }

/-! ### The claims -/

/-- Claim C1, counterexample.  The claim states that for every item name
absent from a container `get(itemName)` fails with an explicit ItemNotFound
result rather than raising an unchecked fault.  On the code this is false:
`RegistryCore::get` is `items_.at(item_name)`, so at the concrete input
(the empty container, name "missing") the lookup raises the unchecked
`std::out_of_range` fault instead of returning any explicit status. -/
theorem get_absent_faults :
    emptyGreeterCore.get "missing" = Except.error Fault.out_of_range := rfl

/-- Claim C1, amended.  For every item name absent from a container,
`get(itemName)` raises the unchecked `out_of_range` fault (from
`std::map::at`) rather than an explicit ItemNotFound result; for every
present name it returns the stored item. -/
theorem get_fault_semantics (r : RegistryCore) (n : String) :
    (lookupKey n r.items = none → r.get n = Except.error Fault.out_of_range)
    ∧ (∀ p, lookupKey n r.items = some p → r.get n = Except.ok p) := by
  constructor
  · intro h
    simp [RegistryCore.get, h]
  · intro p h
    simp [RegistryCore.get, h]

/-- Claim C1, witness for the amended theorem: both branches at concrete
inputs. -/
theorem get_fault_semantics_witness :
    (lookupKey "missing" greeterCore.items = none
      ∧ greeterCore.get "missing" = Except.error Fault.out_of_range)
    ∧ (lookupKey "hello" greeterCore.items = some helloPlugin
      ∧ greeterCore.get "hello" = Except.ok helloPlugin) :=
  ⟨⟨rfl, (get_fault_semantics greeterCore "missing").1 rfl⟩,
    ⟨rfl, (get_fault_semantics greeterCore "hello").2 helloPlugin rfl⟩⟩

/-- Claim C2, counterexample.  The claim states that `add(registryName,
itemName, factory)` fails with an explicit RegistryNotFound result when the
registry name is absent.  On the code this is false: `RegistryFactory::add`
resolves the container through `registry()`, which is
`registries_.at(registry_name)`, so at the concrete input (the empty
directory) the call raises the unchecked `std::out_of_range` fault. -/
theorem add_absent_registry_faults :
    emptyDirectory.add "greeter" "hello" helloPlugin
      = Except.error Fault.out_of_range := rfl

/-- Claim C2, amended.  For every registry name absent from the Directory,
`add(registryName, itemName, factory)` raises the unchecked `out_of_range`
fault (from `std::map::at` inside `registry()`) rather than an explicit
RegistryNotFound result; for every present registry name it forwards to
that container's `add` and returns that container's result. -/
theorem factory_add_semantics (f : RegistryFactory) (rn inm : String)
    (factory : Plugin) :
    (lookupKey rn f.registries = none →
      f.add rn inm factory = Except.error Fault.out_of_range)
    ∧ (∀ r, lookupKey rn f.registries = some r →
      f.add rn inm factory
        = Except.ok ((r.add inm factory).1,
            { registries := insertKey rn (r.add inm factory).2 f.registries })) := by
  constructor
  · intro h
    simp [RegistryFactory.add, RegistryFactory.registry, h]
  · intro r h
    simp [RegistryFactory.add, RegistryFactory.registry, h]

/-- Claim C2, witness for the amended theorem: both branches at concrete
inputs. -/
theorem factory_add_semantics_witness :
    (lookupKey "nosuch" greeterDirectory.registries = none
      ∧ greeterDirectory.add "nosuch" "hello" helloPlugin
          = Except.error Fault.out_of_range)
    ∧ (lookupKey "greeter" greeterDirectory.registries = some greeterCore
      ∧ greeterDirectory.add "greeter" "extra" helloPlugin
          = Except.ok ((greeterCore.add "extra" helloPlugin).1,
              { registries :=
                  insertKey "greeter" (greeterCore.add "extra" helloPlugin).2
                    greeterDirectory.registries })) :=
  ⟨⟨rfl, (factory_add_semantics greeterDirectory "nosuch" "hello" helloPlugin).1 rfl⟩,
    ⟨rfl, (factory_add_semantics greeterDirectory "greeter" "extra" helloPlugin).2
        greeterCore rfl⟩⟩

/-- Claim C9: the Directory's `names(registryName)` raises the unchecked
`out_of_range` fault for an absent registry name (the `.at` lookup happens
before anything else), and for a present registry it always returns that
container's item names: the guard comparing the looked-up handle to null
never fires, so the empty-sequence branch is unreachable. -/
theorem names_fault_semantics (f : RegistryFactory) (rn : String) :
    (lookupKey rn f.registries = none →
      f.names rn = Except.error Fault.out_of_range)
    ∧ (∀ r, lookupKey rn f.registries = some r →
      f.names rn = Except.ok r.names) := by
  constructor
  · intro h
    simp [RegistryFactory.names, h]
  · intro r h
    simp [RegistryFactory.names, isNullHandle, h]

/-- Claim C9, witness: both branches at concrete inputs. -/
theorem names_fault_semantics_witness :
    (lookupKey "nosuch" greeterDirectory.registries = none
      ∧ greeterDirectory.names "nosuch" = Except.error Fault.out_of_range)
    ∧ (lookupKey "greeter" greeterDirectory.registries = some greeterCore
      ∧ greeterDirectory.names "greeter" = Except.ok greeterCore.names) :=
  ⟨⟨rfl, (names_fault_semantics greeterDirectory "nosuch").1 rfl⟩,
    ⟨rfl, (names_fault_semantics greeterDirectory "greeter").2 greeterCore rfl⟩⟩

/-- Claim C4: the Directory's `call` fails with the explicit
RegistryNotFound status when the registry name is absent and with the
explicit ItemNotFound status when the registry exists but the item name is
absent; in both failure cases the event trace is empty, so no plugin
implementation code is invoked; when both exist it delegates to the item's
`call` and returns its status and response. -/
theorem factory_call_resolution (f : RegistryFactory) (rn inm : String)
    (req : PluginRequest) (resp : PluginResponse) :
    (lookupKey rn f.registries = none →
      f.call rn inm req resp = (registryNotFound rn inm, resp, [])
      ∧ (registryNotFound rn inm).ok = false)
    ∧ (∀ r, lookupKey rn f.registries = some r → lookupKey inm r.items = none →
      f.call rn inm req resp = (itemNotFound inm, resp, [])
      ∧ (itemNotFound inm).ok = false)
    ∧ (∀ r p, lookupKey rn f.registries = some r → lookupKey inm r.items = some p →
      f.call rn inm req resp
        = ((p.call req resp).1, (p.call req resp).2, [Event.pluginCall inm])) := by
  refine ⟨?_, ?_, ?_⟩
  · intro h
    exact ⟨by simp [RegistryFactory.call, h], rfl⟩
  · intro r h1 h2
    exact ⟨by simp [RegistryFactory.call, RegistryCore.call, h1, h2], rfl⟩
  · intro r p h1 h2
    simp [RegistryFactory.call, RegistryCore.call, h1, h2]

/-- Claim C4, witness: all three branches at concrete inputs. -/
theorem factory_call_resolution_witness :
    (lookupKey "nosuch" greeterDirectory.registries = none
      ∧ greeterDirectory.call "nosuch" "hello" [] []
          = (registryNotFound "nosuch" "hello", [], [])
      ∧ (registryNotFound "nosuch" "hello").ok = false)
    ∧ (lookupKey "greeter" greeterDirectory.registries = some greeterCore
      ∧ lookupKey "missing" greeterCore.items = none
      ∧ greeterDirectory.call "greeter" "missing" [] []
          = (itemNotFound "missing", [], [])
      ∧ (itemNotFound "missing").ok = false)
    ∧ (lookupKey "hello" greeterCore.items = some helloPlugin
      ∧ greeterDirectory.call "greeter" "hello" [("name", "alice")] []
          = ((helloPlugin.call [("name", "alice")] []).1,
             (helloPlugin.call [("name", "alice")] []).2,
             [Event.pluginCall "hello"])) :=
  ⟨⟨rfl, ((factory_call_resolution greeterDirectory "nosuch" "hello" [] []).1 rfl).1,
      ((factory_call_resolution greeterDirectory "nosuch" "hello" [] []).1 rfl).2⟩,
    ⟨rfl, rfl,
      ((factory_call_resolution greeterDirectory "greeter" "missing" [] []).2.1
          greeterCore rfl rfl).1,
      ((factory_call_resolution greeterDirectory "greeter" "missing" [] []).2.1
          greeterCore rfl rfl).2⟩,
    ⟨rfl,
      (factory_call_resolution greeterDirectory "greeter" "hello"
          [("name", "alice")] []).2.2 greeterCore helloPlugin rfl rfl⟩⟩

/-- Claim C10: whenever the Directory's `call` fails because the registry
or the item is not found, the caller-supplied response is returned exactly
as it was passed in. -/
theorem call_failure_preserves_response (f : RegistryFactory) (rn inm : String)
    (req : PluginRequest) (resp : PluginResponse) :
    (lookupKey rn f.registries = none → (f.call rn inm req resp).2.1 = resp)
    ∧ (∀ r, lookupKey rn f.registries = some r → lookupKey inm r.items = none →
      (f.call rn inm req resp).2.1 = resp) := by
  constructor
  · intro h
    simp [RegistryFactory.call, h]
  · intro r h1 h2
    simp [RegistryFactory.call, RegistryCore.call, h1, h2]

/-- Claim C10, witness: both failure branches at concrete inputs, with a
nonempty caller-supplied response. -/
theorem call_failure_preserves_response_witness :
    (lookupKey "nosuch" greeterDirectory.registries = none
      ∧ (greeterDirectory.call "nosuch" "hello" [] [[("k", "v")]]).2.1 = [[("k", "v")]])
    ∧ (lookupKey "greeter" greeterDirectory.registries = some greeterCore
      ∧ lookupKey "missing" greeterCore.items = none
      ∧ (greeterDirectory.call "greeter" "missing" [] [[("k", "v")]]).2.1
          = [[("k", "v")]]) :=
  ⟨⟨rfl, (call_failure_preserves_response greeterDirectory "nosuch" "hello"
      [] [[("k", "v")]]).1 rfl⟩,
    ⟨rfl, rfl, (call_failure_preserves_response greeterDirectory "greeter" "missing"
      [] [[("k", "v")]]).2 greeterCore rfl rfl⟩⟩

/-- Claim C5: `add(itemName, factory)` on an already-present name fails
with the explicit DuplicateItem status and returns the container state
literally unchanged, the existing item untouched and still call-able; on an
absent name it succeeds with `Status(0, "OK")`, storing the
factory-constructed item under the name with the name assigned, and leaves
every other name's binding unchanged. -/
theorem add_duplicate_and_fresh (r : RegistryCore) (n : String) (factory : Plugin) :
    (∀ p, lookupKey n r.items = some p →
      r.add n factory = (duplicateItem n, r)
      ∧ (duplicateItem n).ok = false
      ∧ ∀ req resp, (r.add n factory).2.call n req resp
          = ((p.call req resp).1, (p.call req resp).2, [Event.pluginCall n]))
    ∧ (lookupKey n r.items = none →
      (r.add n factory).1 = Status.mk 0 "OK"
      ∧ lookupKey n (r.add n factory).2.items = some { factory with name := n }
      ∧ ∀ m, m ≠ n → lookupKey m (r.add n factory).2.items = lookupKey m r.items) := by
  constructor
  · intro p h
    have hadd : r.add n factory = (duplicateItem n, r) := by
      simp [RegistryCore.add, h]
    refine ⟨hadd, rfl, ?_⟩
    intro req resp
    rw [hadd]
    simp [RegistryCore.call, h]
  · intro h
    have hadd : (r.add n factory).2.items
        = insertKey n { factory with name := n } r.items := by
      simp [RegistryCore.add, h]
    refine ⟨by simp [RegistryCore.add, h], ?_, ?_⟩
    · rw [hadd, lookupKey_insertKey]
      simp
    · intro m hm
      rw [hadd, lookupKey_insertKey, if_neg hm]

/-- Claim C5, witness: both branches at concrete inputs. -/
theorem add_duplicate_and_fresh_witness :
    (lookupKey "hello" greeterCore.items = some helloPlugin
      ∧ greeterCore.add "hello" brokenPlugin = (duplicateItem "hello", greeterCore))
    ∧ (lookupKey "extra" greeterCore.items = none
      ∧ lookupKey "extra" (greeterCore.add "extra" helloPlugin).2.items
          = some { helloPlugin with name := "extra" }) :=
  ⟨⟨rfl, ((add_duplicate_and_fresh greeterCore "hello" brokenPlugin).1
      helloPlugin rfl).1⟩,
    ⟨rfl, ((add_duplicate_and_fresh greeterCore "extra" helloPlugin).2 rfl).2.1⟩⟩

/-- Claim C8: `remove(itemName)` on a present item records exactly one
`tearDown` invocation and erases the item, after which `exists` is false
and `call` fails with the explicit ItemNotFound status; bindings of every
other name are untouched; `remove` on an absent name returns the container
unchanged with no events and no error. -/
theorem remove_teardown_exact (r : RegistryCore) (n : String) :
    (∀ p, lookupKey n r.items = some p →
      (r.remove n).2 = [Event.tearDownCall n]
      ∧ (r.remove n).1.existsItem n = false
      ∧ (∀ req resp, (r.remove n).1.call n req resp = (itemNotFound n, resp, []))
      ∧ (∀ m, m ≠ n → lookupKey m (r.remove n).1.items = lookupKey m r.items))
    ∧ (lookupKey n r.items = none → r.remove n = (r, [])) := by
  constructor
  · intro p h
    have hnone : lookupKey n (r.remove n).1.items = none := by
      rw [remove_items, lookupKey_eraseKey]
      simp
    refine ⟨by simp [RegistryCore.remove, h], ?_, ?_, ?_⟩
    · simp [RegistryCore.existsItem, hnone]
    · intro req resp
      simp [RegistryCore.call, hnone]
    · intro m hm
      rw [remove_items, lookupKey_eraseKey, if_neg hm]
  · intro h
    simp [RegistryCore.remove, h]

/-- Claim C8, witness: both branches at concrete inputs. -/
theorem remove_teardown_exact_witness :
    (lookupKey "hello" greeterCore.items = some helloPlugin
      ∧ (greeterCore.remove "hello").2 = [Event.tearDownCall "hello"]
      ∧ (greeterCore.remove "hello").1.existsItem "hello" = false)
    ∧ (lookupKey "missing" greeterCore.items = none
      ∧ greeterCore.remove "missing" = (greeterCore, [])) :=
  ⟨⟨rfl, ((remove_teardown_exact greeterCore "hello").1 helloPlugin rfl).1,
      ((remove_teardown_exact greeterCore "hello").1 helloPlugin rfl).2.1⟩,
    ⟨rfl, (remove_teardown_exact greeterCore "missing").2 rfl⟩⟩

/-- Claim C3: on a non-lazy container with unique item names (the
`std::map` invariant), `setUp` first calls `setUp()` on every current item
(the `setUpCall` events, one per item, all preceding any removal event and
computed without mutating the container) and then removes — tearDown plus
erase — exactly the names whose `setUp` failed (the `tearDownCall` events);
every item whose `setUp` succeeded is still present under its name and
still call-able, every failed item is gone, and no other name appears. -/
theorem setUp_auto_two_phase (r : RegistryCore) (h : r.auto_setup = true)
    (hnd : (r.items.map Prod.fst).Nodup) :
    ((r.setUp).2 = r.items.map (fun p => Event.setUpCall p.1)
        ++ r.failedNames.map Event.tearDownCall)
    ∧ (∀ n p, lookupKey n r.items = some p → p.setUp.ok = true →
        lookupKey n (r.setUp).1.items = some p
        ∧ ∀ req resp, (r.setUp).1.call n req resp
            = ((p.call req resp).1, (p.call req resp).2, [Event.pluginCall n]))
    ∧ (∀ n p, lookupKey n r.items = some p → p.setUp.ok = false →
        lookupKey n (r.setUp).1.items = none)
    ∧ (∀ n, lookupKey n r.items = none → lookupKey n (r.setUp).1.items = none) := by
  have hsetUp1 : (r.setUp).1 = (removeList r r.failedNames).1 := by
    simp [RegistryCore.setUp, h]
  have hfailsome : ∀ n ∈ r.failedNames, (lookupKey n r.items).isSome = true := by
    intro n hn
    obtain ⟨p, hmem, _⟩ := mem_failedNames.mp hn
    exact lookupKey_isSome_of_mem hmem
  refine ⟨?_, ?_, ?_, ?_⟩
  · have hev : (r.setUp).2 = r.items.map (fun p => Event.setUpCall p.1)
        ++ (removeList r r.failedNames).2 := by
      simp [RegistryCore.setUp, h]
    rw [hev, removeList_events r.failedNames r (failedNames_nodup r hnd) hfailsome]
  · intro n p hlk hok
    have hnot : n ∉ r.failedNames := by
      intro hn
      obtain ⟨q, hqmem, hqfail⟩ := mem_failedNames.mp hn
      have hq : lookupKey n r.items = some q := lookupKey_eq_some_of_mem_nodup hnd hqmem
      have heq : some p = some q := hlk.symm.trans hq
      injection heq with hpq
      subst hpq
      rw [hok] at hqfail
      simp at hqfail
    have hl : lookupKey n (r.setUp).1.items = some p := by
      rw [hsetUp1, lookupKey_removeList_items, if_neg hnot, hlk]
    refine ⟨hl, ?_⟩
    intro req resp
    simp [RegistryCore.call, hl]
  · intro n p hlk hfail
    have hin : n ∈ r.failedNames := mem_failedNames.mpr ⟨p, lookupKey_mem hlk, hfail⟩
    rw [hsetUp1, lookupKey_removeList_items, if_pos hin]
  · intro n hlk
    rw [hsetUp1, lookupKey_removeList_items]
    by_cases hn : n ∈ r.failedNames
    · rw [if_pos hn]
    · rw [if_neg hn, hlk]

/-- Claim C3, witness: on the sample container, after `setUp` the healthy
item survives unchanged and the broken one is gone, and the trace shows
both first-pass `setUp` calls followed by exactly the failed removal. -/
theorem setUp_auto_two_phase_witness :
    greeterCore.auto_setup = true
    ∧ (greeterCore.items.map Prod.fst).Nodup
    ∧ (greeterCore.setUp).2
        = greeterCore.items.map (fun p => Event.setUpCall p.1)
          ++ greeterCore.failedNames.map Event.tearDownCall
    ∧ lookupKey "hello" (greeterCore.setUp).1.items = some helloPlugin
    ∧ lookupKey "broken" (greeterCore.setUp).1.items = none :=
  ⟨rfl, by decide,
    (setUp_auto_two_phase greeterCore rfl (by decide)).1,
    ((setUp_auto_two_phase greeterCore rfl (by decide)).2.1 "hello" helloPlugin
        rfl rfl).1,
    (setUp_auto_two_phase greeterCore rfl (by decide)).2.2.1 "broken" brokenPlugin
        rfl rfl⟩

/-- Claim C6: a lazy container's `setUp` returns immediately — it records
no event whatsoever (zero per-item `setUp` calls, zero removals) and
returns the container exactly as it was. -/
theorem setUp_lazy_noop (r : RegistryCore) (h : r.auto_setup = false) :
    r.setUp = (r, []) := by
  simp [RegistryCore.setUp, h]

/-- Claim C6, witness: the lazy sample container (which holds items,
including one whose `setUp` would fail) is returned untouched with an
empty trace. -/
theorem setUp_lazy_noop_witness :
    lazyCore.auto_setup = false ∧ lazyCore.setUp = (lazyCore, []) :=
  ⟨rfl, setUp_lazy_noop lazyCore rfl⟩

/-- Claim C7: `getRoutes()` has exactly the current items' names as keys
(so nothing survives for a removed item), and each entry is that item's
`routeInfo`; the Directory's `getBroadcast()` has exactly the current
registry names as keys, and each entry is that container's `getRoutes`. -/
theorem routes_exact_snapshot (r : RegistryCore) (n : String)
    (f : RegistryFactory) (rn : String) :
    (r.getRoutes).map Prod.fst = r.items.map Prod.fst
    ∧ lookupKey n r.getRoutes = (lookupKey n r.items).map Plugin.routeInfo
    ∧ (f.getBroadcast).map Prod.fst = f.registries.map Prod.fst
    ∧ lookupKey rn f.getBroadcast
        = (lookupKey rn f.registries).map RegistryCore.getRoutes := by
  refine ⟨?_, ?_, ?_, ?_⟩
  · simp [RegistryCore.getRoutes]
  · exact lookupKey_map (fun _ p => p.routeInfo) n r.items
  · simp [RegistryFactory.getBroadcast]
  · exact lookupKey_map (fun _ c => c.getRoutes) rn f.registries

end osquery
